import Mathlib

/-! Formal model of the client-side session manager in `auth.js` of
`app-posmin`: session state, the credential store, authenticated HTTP
calls with the 401-retry-once protocol, and the
login / refresh / logout / initAuth lifecycle.

The network is modelled as a script: a list of fetch outcomes consumed in
order (an exhausted script behaves like a network failure).  Each
operation returns its result, the updated world, the remaining script,
the trace of requests it issued, and the number of fire-and-forget
`logout()` invocations it triggered.  The `logout()` calls made inside
`apiCall`'s catch block (line 61) and inside the auto-refresh tick
(line 138) are not awaited in the source, so they are recorded as
deferred events (`logoutCalls`) rather than executed inline; the
directly awaited `logout()` operation itself is modelled in full. -/

namespace Posmin

/-- User profile record returned by the authentication service
(`res.user`), opaque beyond the `role` field used by `hasRole`. -/
structure User where
  id : String
  email : String
  role : String
deriving DecidableEq, Repr

/-- A JSON response body, restricted to the fields this module reads:
`accessToken`, `refreshToken`, `user` (login/refresh payloads) and
`error`, `message` (error bodies).  `none` models an absent field
(`undefined`); `notJson` models a body on which `response.json()`
rejects. -/
inductive Body where
  | obj (accessToken refreshToken : Option String) (user : Option User)
        (error message : Option String)
  | notJson
deriving DecidableEq, Repr

/-- Field access `res.accessToken` (absent on a non-object body). -/
def Body.accessTokenF : Body → Option String
  | .obj a _ _ _ _ => a
  | .notJson => none

/-- Field access `res.refreshToken`. -/
def Body.refreshTokenF : Body → Option String
  | .obj _ r _ _ _ => r
  | .notJson => none

/-- Field access `res.user`. -/
def Body.userF : Body → Option User
  | .obj _ _ u _ _ => u
  | .notJson => none

/-- Failure raised by an operation: a thrown `Error` with a message, a
rejected `fetch` (network failure), or a rejected `response.json()` on a
2xx response. -/
inductive Err where
  | msg (s : String)
  | network
  | parse
deriving DecidableEq, Repr

/-- JS truthiness of a nullable string: `null`/`undefined` and the empty
string are falsy. -/
def truthy : Option String → Bool
  | none => false
  | some s => !s.isEmpty

/-- JS `a || b` on a nullable string field with a string fallback: the
field is used when present and non-empty (truthy), otherwise the
fallback. -/
def orElseTruthy : Option String → String → String
  | some s, d => if s.isEmpty then d else s
  | none, d => d

/-- Message of the error thrown for a non-2xx response (lines 66–71):
`error.error || error.message || "Error en la petición"`, where a body on
which `.json()` rejects is replaced by `{error: "Error desconocido"}`. -/
def errorMessageOf : Body → String
  | .notJson => "Error desconocido"
  | .obj _ _ _ e m => orElseTruthy e (orElseTruthy m "Error en la petición")

/-- Request bodies serialized by this module. -/
inductive ReqBody where
  | loginBody (email password : String)
  | registerBody (email password company_name : String)
  | refreshBody (refresh_token : String)
deriving DecidableEq, Repr

/-- Model instrumentation: which request operation issued a fetch —
`apiCall` (the variant with the 401-retry protocol, lines 28–74) or
`apiRequest` (the storage-only variant, lines 181–207).  This tag is not
data sent on the wire; it records the issuing code path in the trace. -/
inductive Via where
  | call
  | request
deriving DecidableEq, Repr

/-- An HTTP request as issued by the module: endpoint, method, the
access credential attached as the bearer `Authorization` header (`none`
when no header is attached, or when the interpolated credential is
`null`/`undefined`), and the serialized body. -/
structure Request where
  endpoint : String
  method : String
  auth : Option String
  body : Option ReqBody
  via : Via
deriving DecidableEq, Repr

/-- Outcome of one `fetch`: a resolved response (any status) with a
body, or a rejection (network failure). -/
inductive FetchResult where
  | resolved (status : Nat) (body : Body)
  | netErr
deriving DecidableEq, Repr

/-- `response.ok`: status in the inclusive range 200–299. -/
def responseOk (status : Nat) : Bool :=
  200 ≤ status && status ≤ 299

/-- In-memory `authState` (lines 10–14). -/
structure AuthState where
  access : Option String
  refresh : Option String
  user : Option User
deriving DecidableEq, Repr

/-- The whole mutable world the module touches: `authState`, the
`localStorage` slot under `REFRESH_TOKEN_KEY`, the module variable
`refreshInterval` (the timer id, or `null`), the set of interval timers
currently scheduled in the environment together with an id allocator
(browser interval ids are positive), and the list of
`window.location.replace` navigations performed, in order. -/
structure World where
  authState : AuthState
  storedRefresh : Option String
  refreshInterval : Option Nat
  activeTimers : List Nat
  nextTimerId : Nat
  navigations : List String
deriving DecidableEq, Repr

deriving instance DecidableEq for Except

/-- Result of running one asynchronous operation against a network
script: the value or thrown error, the world after the operation, the
unconsumed remainder of the script, the requests issued (in order), and
how many un-awaited `logout()` tasks were fired. -/
structure Step (α : Type) where
  result : Except Err α
  world : World
  net : List FetchResult
  trace : List Request
  logoutCalls : Nat
deriving DecidableEq, Repr

/-- `getStoredRefresh()` (lines 18–20). -/
def getStoredRefresh (w : World) : Option String :=
  w.storedRefresh

/-- `setStoredRefresh(token)` (lines 22–26): a truthy token is written,
any falsy token (`null`, `undefined`, `""`) removes the slot. -/
def setStoredRefresh (token : Option String) (w : World) : World :=
  if truthy token then { w with storedRefresh := token }
  else { w with storedRefresh := none }

/-- The request built from `options` (lines 29–42): the `Authorization`
header is attached only when `authState.access` is truthy. -/
def mkRequest (w : World) (endpoint method : String) (body : Option ReqBody)
    (via : Via) : Request :=
  { endpoint := endpoint, method := method,
    auth := if truthy w.authState.access then w.authState.access else none,
    body := body, via := via }

/-- One fetch followed by the plain response handling (steps 1–2 and
4–5 of the protocol): non-2xx raises the extracted error message, a 2xx
response returns its parsed JSON body.  This is the whole body of
`apiRequest` (lines 181–207) and the non-401 path of `apiCall`;
`Via` records which of the two operations issued the fetch. -/
def fetchStep (w : World) (net : List FetchResult) (endpoint method : String)
    (body : Option ReqBody) (via : Via) : Step Body :=
  let req := mkRequest w endpoint method body via
  match net with
  | [] => ⟨.error .network, w, [], [req], 0⟩
  | .netErr :: rest => ⟨.error .network, w, rest, [req], 0⟩
  | .resolved status rbody :: rest =>
    if responseOk status then
      match rbody with
      | .notJson => ⟨.error .parse, w, rest, [req], 0⟩
      | b => ⟨.ok b, w, rest, [req], 0⟩
    else ⟨.error (.msg (errorMessageOf rbody)), w, rest, [req], 0⟩

/-- `apiRequest(endpoint, method, body)` (lines 181–207): the
storage-only variant, steps 1–2 and 4–5 only, never any retry. -/
def apiRequest (w : World) (net : List FetchResult) (endpoint method : String)
    (body : Option ReqBody) : Step Body :=
  fetchStep w net endpoint method body .request

/-- `refreshToken()` (lines 99–114).  The source issues its request via
`apiCall("/refresh", "POST", {refresh_token: stored})`; on the endpoint
`"/refresh"` the 401-retry branch of `apiCall` is statically disabled by
the guard `endpoint !== "/refresh"` (line 46), so that call is exactly
one fetch with plain handling, i.e. `fetchStep` tagged `Via.call` — the
theorem `apiCall_refresh_eq_fetchStep` below proves this equality
against the full `apiCall` definition.  On success the payload fields
replace `authState.access/refresh/user` and the (possibly absent or
empty) new refresh token is persisted through `setStoredRefresh`. -/
def refreshToken (w : World) (net : List FetchResult) : Step Body :=
  let stored := getStoredRefresh w
  if truthy stored then
    let s := fetchStep w net "/refresh" "POST"
      (some (.refreshBody (stored.getD ""))) .call
    match s.result with
    | .error e => ⟨.error e, s.world, s.net, s.trace, s.logoutCalls⟩
    | .ok res =>
      let w2 := { s.world with authState :=
        { access := res.accessTokenF, refresh := res.refreshTokenF,
          user := res.userF } }
      ⟨.ok res, setStoredRefresh res.refreshTokenF w2, s.net, s.trace,
        s.logoutCalls⟩
  else ⟨.error (.msg "No hay refresh token"), w, net, [], 0⟩

/-- The retried request (lines 50–56): same endpoint, method and body as
the original, with the `Authorization` header rebuilt unconditionally
from the current (post-refresh) `authState.access`. -/
def retryRequest (w : World) (endpoint method : String)
    (body : Option ReqBody) : Request :=
  { endpoint := endpoint, method := method, auth := w.authState.access,
    body := body, via := .call }

/-- `apiCall(endpoint, method, body)` (lines 28–74).  A 401 on an
endpoint other than `"/refresh"` enters the guarded retry block: await
`refreshToken()`, then refetch the identical request once; any failure
inside the block (refresh failure, retry rejection, retry non-2xx) fires
an un-awaited `logout()` and rethrows.  The `return retry.json()` /
`return response.json()` expressions return an un-awaited promise, so a
JSON parse failure on a 2xx response is *not* caught by the try/catch
and fires no `logout()`. -/
def apiCall (w : World) (net : List FetchResult) (endpoint method : String)
    (body : Option ReqBody) : Step Body :=
  let req := mkRequest w endpoint method body .call
  match net with
  | [] => ⟨.error .network, w, [], [req], 0⟩
  | .netErr :: rest => ⟨.error .network, w, rest, [req], 0⟩
  | .resolved status rbody :: rest =>
    if status == 401 && endpoint != "/refresh" then
      let r := refreshToken w rest
      match r.result with
      | .error e =>
        ⟨.error e, r.world, r.net, req :: r.trace, r.logoutCalls + 1⟩
      | .ok _ =>
        let rq := retryRequest r.world endpoint method body
        match r.net with
        | [] =>
          ⟨.error .network, r.world, [], req :: r.trace ++ [rq],
            r.logoutCalls + 1⟩
        | .netErr :: rest2 =>
          ⟨.error .network, r.world, rest2, req :: r.trace ++ [rq],
            r.logoutCalls + 1⟩
        | .resolved st2 b2 :: rest2 =>
          if responseOk st2 then
            match b2 with
            | .notJson =>
              ⟨.error .parse, r.world, rest2, req :: r.trace ++ [rq],
                r.logoutCalls⟩
            | b =>
              ⟨.ok b, r.world, rest2, req :: r.trace ++ [rq],
                r.logoutCalls⟩
          else
            ⟨.error (.msg "Retry failed"), r.world, rest2,
              req :: r.trace ++ [rq], r.logoutCalls + 1⟩
    else
      if responseOk status then
        match rbody with
        | .notJson => ⟨.error .parse, w, rest, [req], 0⟩
        | b => ⟨.ok b, w, rest, [req], 0⟩
      else ⟨.error (.msg (errorMessageOf rbody)), w, rest, [req], 0⟩

/-- `stopAutoRefresh()` (lines 143–148): `if (refreshInterval)` — a
held, truthy (nonzero) timer id is cleared and the variable nulled. -/
def stopAutoRefresh (w : World) : World :=
  match w.refreshInterval with
  | some id =>
    if id = 0 then w
    else { w with activeTimers := w.activeTimers.erase id,
                  refreshInterval := none }
  | none => w

/-- `startAutoRefresh()` (lines 130–141): cancel any existing timer,
then schedule a fresh interval and remember its id. -/
def startAutoRefresh (w : World) : World :=
  let w1 := stopAutoRefresh w
  { w1 with activeTimers := w1.activeTimers ++ [w1.nextTimerId],
            refreshInterval := some w1.nextTimerId,
            nextTimerId := w1.nextTimerId + 1 }

/-- One tick of the auto-refresh interval (lines 133–140): await
`refreshToken()`; on failure, log and fire an un-awaited `logout()`.
The tick itself never throws outward. -/
def refreshTick (w : World) (net : List FetchResult) : Step Unit :=
  let s := refreshToken w net
  match s.result with
  | .ok _ => ⟨.ok (), s.world, s.net, s.trace, s.logoutCalls⟩
  | .error _ => ⟨.ok (), s.world, s.net, s.trace, s.logoutCalls + 1⟩

/-- `login(email, password)` (lines 84–97): on success of the call,
replace `authState`, persist the refresh token, start the timer and
return the payload; on failure the thrown error propagates as-is. -/
def login (w : World) (net : List FetchResult) (email password : String) :
    Step Body :=
  let s := apiCall w net "/login" "POST" (some (.loginBody email password))
  match s.result with
  | .error e => ⟨.error e, s.world, s.net, s.trace, s.logoutCalls⟩
  | .ok res =>
    let w2 := { s.world with authState :=
      { access := res.accessTokenF, refresh := res.refreshTokenF,
        user := res.userF } }
    let w3 := setStoredRefresh res.refreshTokenF w2
    ⟨.ok res, startAutoRefresh w3, s.net, s.trace, s.logoutCalls⟩

/-- `register(email, password, company_name)` (lines 76–82). -/
def register (w : World) (net : List FetchResult)
    (email password company_name : String) : Step Body :=
  apiCall w net "/register" "POST"
    (some (.registerBody email password company_name))

/-- `logout()` (lines 116–128): stop the timer, attempt the remote
logout (any error is caught and only logged), then in the `finally`
block unconditionally reset `authState`, remove the stored refresh
token, and navigate to the unauthenticated landing page.  `logout`
itself never throws. -/
def logout (w : World) (net : List FetchResult) : Step Unit :=
  let w1 := stopAutoRefresh w
  let s := apiCall w1 net "/logout" "POST" none
  let w2 := { s.world with authState :=
    { access := none, refresh := none, user := none } }
  let w3 := setStoredRefresh none w2
  let w4 := { w3 with navigations := w3.navigations ++ ["/index.html"] }
  ⟨.ok (), w4, s.net, s.trace, s.logoutCalls⟩

/-- `initAuth()` (lines 150–157): fail fast when nothing is stored;
otherwise await `refreshToken()` and, on its success only, start the
timer.  A `refreshToken` failure propagates untouched. -/
def initAuth (w : World) (net : List FetchResult) : Step Body :=
  let stored := getStoredRefresh w
  if truthy stored then
    let s := refreshToken w net
    match s.result with
    | .error e => ⟨.error e, s.world, s.net, s.trace, s.logoutCalls⟩
    | .ok res => ⟨.ok res, startAutoRefresh s.world, s.net, s.trace,
        s.logoutCalls⟩
  else ⟨.error (.msg "No autenticado"), w, net, [], 0⟩

/-- `requireAuth()` (lines 159–163). -/
def requireAuth (w : World) : World :=
  if truthy (getStoredRefresh w) then w
  else { w with navigations := w.navigations ++ ["/index.html"] }

/-- `isAuthenticated()` (lines 165–167): `!!getStoredRefresh()`. -/
def isAuthenticated (w : World) : Bool :=
  truthy (getStoredRefresh w)

/-- `getUser()` (lines 169–171). -/
def getUser (w : World) : Option User :=
  w.authState.user

/-- `getAccessToken()` (lines 173–175). -/
def getAccessToken (w : World) : Option String :=
  w.authState.access

/-- `hasRole(...roles)` (lines 177–179): the value of
`authState.user && roles.includes(authState.user.role)` — the boolean
membership test when a user is loaded, and the short-circuited `null`
(modelled `none`) when not.  The function never throws. -/
def hasRole (w : World) (roles : List String) : Option Bool :=
  match w.authState.user with
  | none => none
  | some u => some (roles.contains u.role)

/-- The auto-refresh period, `REFRESH_INTERVAL = 252e5` ms (line 8). -/
def REFRESH_INTERVAL : Nat := 25200000

/-- Whether an operation result is a success. -/
def exOk {α : Type} : Except Err α → Bool
  | .ok _ => true
  | .error _ => false

/-- Number of requests in a trace addressed to a given endpoint. -/
def requestsTo (tr : List Request) (e : String) : Nat :=
  (tr.filter (fun rq => rq.endpoint == e)).length

/-- The store-mirroring relation of the data-model invariant: the
credential-store slot holds the in-memory refresh credential exactly
when that credential is truthy, and is absent otherwise. -/
def storeMirrors (w : World) : Prop :=
  w.storedRefresh = if truthy w.authState.refresh then w.authState.refresh
                    else none

instance : Decidable (storeMirrors w) := by
  unfold storeMirrors; infer_instance

/-- Well-formedness of the timer bookkeeping: the environment's active
timers are exactly the one remembered in `refreshInterval` (if any), the
id allocator is ahead of zero, and a remembered id is truthy. -/
def timerInv (w : World) : Prop :=
  w.activeTimers = w.refreshInterval.toList ∧ 0 < w.nextTimerId ∧
    w.refreshInterval.getD 1 ≠ 0

instance : Decidable (timerInv w) := by
  unfold timerInv; infer_instance

/-- The all-null `authState` (lines 10–14 and 124). -/
def emptyAuth : AuthState :=
  { access := none, refresh := none, user := none }

/-- A fresh world with a given stored refresh credential: no session in
memory, no timer scheduled, nothing navigated. -/
def baseWorld (stored : Option String) : World :=
  { authState := emptyAuth, storedRefresh := stored,
    refreshInterval := none, activeTimers := [], nextTimerId := 1,
    navigations := [] }

/-- The components of the world not touched by the HTTP layer: timers
and navigations. -/
def timerNavEq (w1 w2 : World) : Prop :=
  w1.refreshInterval = w2.refreshInterval ∧
  w1.activeTimers = w2.activeTimers ∧
  w1.nextTimerId = w2.nextTimerId ∧
  w1.navigations = w2.navigations

theorem timerNavEq_refl (w : World) : timerNavEq w w :=
  ⟨rfl, rfl, rfl, rfl⟩

theorem timerNavEq_trans {w1 w2 w3 : World} (h1 : timerNavEq w1 w2)
    (h2 : timerNavEq w2 w3) : timerNavEq w1 w3 :=
  ⟨h1.1.trans h2.1, h1.2.1.trans h2.2.1, h1.2.2.1.trans h2.2.2.1,
    h1.2.2.2.trans h2.2.2.2⟩

theorem timerInv_of_timerNavEq {w1 w2 : World} (h : timerNavEq w1 w2)
    (hi : timerInv w2) : timerInv w1 := by
  unfold timerInv at hi ⊢
  rw [h.1, h.2.1, h.2.2.1]
  exact hi

theorem fetchStep_world (w : World) (net : List FetchResult)
    (e m : String) (b : Option ReqBody) (v : Via) :
    (fetchStep w net e m b v).world = w := by
  unfold fetchStep
  cases net with
  | nil => rfl
  | cons f rest =>
    cases f with
    | netErr => rfl
    | resolved st rb =>
      dsimp only
      split
      · cases rb <;> rfl
      · rfl

theorem fetchStep_logoutCalls (w : World) (net : List FetchResult)
    (e m : String) (b : Option ReqBody) (v : Via) :
    (fetchStep w net e m b v).logoutCalls = 0 := by
  unfold fetchStep
  cases net with
  | nil => rfl
  | cons f rest =>
    cases f with
    | netErr => rfl
    | resolved st rb =>
      dsimp only
      split
      · cases rb <;> rfl
      · rfl

theorem fetchStep_trace (w : World) (net : List FetchResult)
    (e m : String) (b : Option ReqBody) (v : Via) :
    (fetchStep w net e m b v).trace = [mkRequest w e m b v] := by
  unfold fetchStep
  cases net with
  | nil => rfl
  | cons f rest =>
    cases f with
    | netErr => rfl
    | resolved st rb =>
      dsimp only
      split
      · cases rb <;> rfl
      · rfl

theorem setStoredRefresh_authState (t : Option String) (w : World) :
    (setStoredRefresh t w).authState = w.authState := by
  unfold setStoredRefresh; split <;> rfl

theorem setStoredRefresh_stored (t : Option String) (w : World) :
    (setStoredRefresh t w).storedRefresh = if truthy t then t else none := by
  unfold setStoredRefresh; split <;> simp_all

theorem setStoredRefresh_timerNav (t : Option String) (w : World) :
    timerNavEq (setStoredRefresh t w) w := by
  unfold setStoredRefresh; split <;> exact ⟨rfl, rfl, rfl, rfl⟩

/-- On the endpoint `"/refresh"` the retry branch of `apiCall` is
disabled by the guard of line 46, and `apiCall` is exactly one fetch
with plain response handling. -/
theorem apiCall_refresh_eq_fetchStep (w : World) (net : List FetchResult)
    (m : String) (b : Option ReqBody) :
    apiCall w net "/refresh" m b = fetchStep w net "/refresh" m b .call := by
  unfold apiCall fetchStep
  rcases net with _ | ⟨_ | ⟨st, rb⟩, rest⟩ <;> simp

theorem refreshToken_trace (w : World) (net : List FetchResult) :
    (refreshToken w net).trace =
      if truthy (getStoredRefresh w) then
        [mkRequest w "/refresh" "POST"
          (some (.refreshBody ((getStoredRefresh w).getD ""))) .call]
      else [] := by
  unfold refreshToken fetchStep
  dsimp only
  split
  case isTrue h =>
    cases net with
    | nil => simp [h]
    | cons f rest =>
      cases f with
      | netErr => simp [h]
      | resolved st rb =>
        cases hok : responseOk st <;> cases rb <;> simp [h, hok]
  case isFalse h => simp [h]

theorem refreshToken_logoutCalls (w : World) (net : List FetchResult) :
    (refreshToken w net).logoutCalls = 0 := by
  unfold refreshToken fetchStep
  dsimp only
  split
  case isTrue h =>
    cases net with
    | nil => simp
    | cons f rest =>
      cases f with
      | netErr => simp
      | resolved st rb =>
        cases hok : responseOk st <;> cases rb <;> simp [hok]
  case isFalse h => simp

theorem refreshToken_timerNav (w : World) (net : List FetchResult) :
    timerNavEq (refreshToken w net).world w := by
  unfold refreshToken fetchStep
  dsimp only
  split
  case isTrue h =>
    cases net with
    | nil => exact timerNavEq_refl w
    | cons f rest =>
      cases f with
      | netErr => exact timerNavEq_refl w
      | resolved st rb =>
        cases hok : responseOk st <;> cases rb <;> simp only [hok] <;>
          first
          | exact timerNavEq_refl w
          | exact timerNavEq_trans (setStoredRefresh_timerNav _ _)
              ⟨rfl, rfl, rfl, rfl⟩
  case isFalse h => exact timerNavEq_refl w

theorem storeMirrors_update (wb : World) (a t : Option String)
    (u : Option User) :
    storeMirrors (setStoredRefresh t
      { wb with authState := { access := a, refresh := t, user := u } }) := by
  unfold storeMirrors setStoredRefresh
  split <;> simp_all

theorem refreshToken_mirrors (w : World) (net : List FetchResult)
    (h : storeMirrors w) : storeMirrors (refreshToken w net).world := by
  unfold refreshToken fetchStep
  dsimp only
  split
  case isTrue ht =>
    cases net with
    | nil => exact h
    | cons f rest =>
      cases f with
      | netErr => exact h
      | resolved st rb =>
        cases hok : responseOk st <;> cases rb <;> simp only [hok] <;>
          first
          | exact h
          | exact storeMirrors_update _ _ _ _
  case isFalse ht => exact h

theorem apiCall_timerNav (w : World) (net : List FetchResult)
    (e m : String) (b : Option ReqBody) :
    timerNavEq (apiCall w net e m b).world w := by
  unfold apiCall
  dsimp only
  cases net with
  | nil => exact timerNavEq_refl w
  | cons f rest =>
    cases f with
    | netErr => exact timerNavEq_refl w
    | resolved st rb =>
      dsimp only
      split
      case isTrue h =>
        have hr := refreshToken_timerNav w rest
        split
        · exact hr
        · split
          · exact hr
          · exact hr
          · split
            · split <;> exact hr
            · exact hr
      case isFalse h =>
        split
        · split <;> exact timerNavEq_refl w
        · exact timerNavEq_refl w

theorem apiCall_mirrors (w : World) (net : List FetchResult)
    (e m : String) (b : Option ReqBody) (h : storeMirrors w) :
    storeMirrors (apiCall w net e m b).world := by
  unfold apiCall
  dsimp only
  cases net with
  | nil => exact h
  | cons f rest =>
    cases f with
    | netErr => exact h
    | resolved st rb =>
      dsimp only
      split
      case isTrue hc =>
        have hr := refreshToken_mirrors w rest h
        split
        · exact hr
        · split
          · exact hr
          · exact hr
          · split
            · split <;> exact hr
            · exact hr
      case isFalse hc =>
        split
        · split <;> exact h
        · exact h

theorem stopAutoRefresh_nextTimerId (w : World) :
    (stopAutoRefresh w).nextTimerId = w.nextTimerId := by
  unfold stopAutoRefresh
  cases w.refreshInterval with
  | none => rfl
  | some id =>
    dsimp only
    split <;> rfl

theorem stopAutoRefresh_navigations (w : World) :
    (stopAutoRefresh w).navigations = w.navigations := by
  unfold stopAutoRefresh
  cases w.refreshInterval with
  | none => rfl
  | some id =>
    dsimp only
    split <;> rfl

theorem stopAutoRefresh_idem (w : World) :
    stopAutoRefresh (stopAutoRefresh w) = stopAutoRefresh w := by
  unfold stopAutoRefresh
  cases h : w.refreshInterval with
  | none => simp [h]
  | some id =>
    by_cases hid : id = 0 <;> simp [h, hid]

theorem timerInv_stop {w : World} (h : timerInv w) :
    timerInv (stopAutoRefresh w) ∧ (stopAutoRefresh w).activeTimers = [] ∧
    (stopAutoRefresh w).refreshInterval = none := by
  obtain ⟨h1, h2, h3⟩ := h
  cases hr : w.refreshInterval with
  | none =>
    have hw : stopAutoRefresh w = w := by
      unfold stopAutoRefresh; rw [hr]
    rw [hr] at h1 h3
    simp only [Option.toList] at h1
    rw [hw]
    refine ⟨⟨?_, h2, ?_⟩, h1, hr⟩
    · rw [hr, h1]; rfl
    · rw [hr]; exact h3
  | some id =>
    rw [hr] at h1 h3
    simp only [Option.toList] at h1
    simp only [Option.getD] at h3
    have hw : stopAutoRefresh w =
        { w with activeTimers := w.activeTimers.erase id,
                 refreshInterval := none } := by
      unfold stopAutoRefresh; rw [hr]; dsimp only; rw [if_neg h3]
    rw [hw]
    refine ⟨⟨?_, h2, by simp⟩, ?_, rfl⟩ <;>
      simp [h1, List.erase_cons_head]

theorem timerInv_start {w : World} (h : timerInv w) :
    timerInv (startAutoRefresh w) ∧
    (startAutoRefresh w).activeTimers = [(stopAutoRefresh w).nextTimerId] ∧
    (startAutoRefresh w).refreshInterval =
      some (stopAutoRefresh w).nextTimerId := by
  obtain ⟨hs, ha, hr⟩ := timerInv_stop h
  have h2 := h.2.1
  have hn := stopAutoRefresh_nextTimerId w
  unfold startAutoRefresh
  refine ⟨⟨?_, ?_, ?_⟩, ?_, rfl⟩
  · simp [ha]
  · simp
  · simp only [Option.getD]
    omega
  · simp [ha]

theorem timerInv_of_fields {w1 w2 : World}
    (ha : w1.activeTimers = w2.activeTimers)
    (hr : w1.refreshInterval = w2.refreshInterval)
    (hn : w1.nextTimerId = w2.nextTimerId)
    (h : timerInv w2) : timerInv w1 := by
  unfold timerInv at h ⊢
  rw [ha, hr, hn]
  exact h

theorem stopAutoRefresh_storedRefresh (w : World) :
    (stopAutoRefresh w).storedRefresh = w.storedRefresh := by
  unfold stopAutoRefresh
  cases w.refreshInterval with
  | none => rfl
  | some id => dsimp only; split <;> rfl

theorem stopAutoRefresh_authState (w : World) :
    (stopAutoRefresh w).authState = w.authState := by
  unfold stopAutoRefresh
  cases w.refreshInterval with
  | none => rfl
  | some id => dsimp only; split <;> rfl

theorem startAutoRefresh_storedRefresh (w : World) :
    (startAutoRefresh w).storedRefresh = w.storedRefresh := by
  unfold startAutoRefresh
  exact stopAutoRefresh_storedRefresh w

theorem startAutoRefresh_authState (w : World) :
    (startAutoRefresh w).authState = w.authState := by
  unfold startAutoRefresh
  exact stopAutoRefresh_authState w

theorem startAutoRefresh_navigations (w : World) :
    (startAutoRefresh w).navigations = w.navigations := by
  unfold startAutoRefresh
  exact stopAutoRefresh_navigations w

theorem storeMirrors_start {w : World} (h : storeMirrors w) :
    storeMirrors (startAutoRefresh w) := by
  unfold storeMirrors at h ⊢
  rw [startAutoRefresh_storedRefresh, startAutoRefresh_authState]
  exact h

theorem timerInv_refreshToken {w : World} (net : List FetchResult)
    (h : timerInv w) : timerInv (refreshToken w net).world := by
  have he := refreshToken_timerNav w net
  exact timerInv_of_fields he.2.1 he.1 he.2.2.1 h

theorem timerInv_apiCall {w : World} (net : List FetchResult)
    (e m : String) (b : Option ReqBody) (h : timerInv w) :
    timerInv (apiCall w net e m b).world := by
  have he := apiCall_timerNav w net e m b
  exact timerInv_of_fields he.2.1 he.1 he.2.2.1 h

theorem timerInv_login {w : World} (net : List FetchResult)
    (email password : String) (h : timerInv w) :
    timerInv (login w net email password).world := by
  unfold login
  dsimp only
  split
  · exact timerInv_apiCall _ _ _ _ h
  · refine (timerInv_start ?_).1
    refine timerInv_of_timerNavEq ?_ h
    exact timerNavEq_trans
      (timerNavEq_trans (setStoredRefresh_timerNav _ _) ⟨rfl, rfl, rfl, rfl⟩)
      (apiCall_timerNav w net "/login" "POST"
        (some (.loginBody email password)))

theorem timerInv_initAuth {w : World} (net : List FetchResult)
    (h : timerInv w) : timerInv (initAuth w net).world := by
  unfold initAuth
  dsimp only
  split
  · split
    · exact timerInv_refreshToken _ h
    · exact (timerInv_start (timerInv_refreshToken _ h)).1
  · exact h

theorem timerInv_logout {w : World} (net : List FetchResult)
    (h : timerInv w) : timerInv (logout w net).world := by
  unfold logout
  dsimp only
  have hstop := (timerInv_stop h).1
  have he := apiCall_timerNav (stopAutoRefresh w) net "/logout" "POST" none
  refine timerInv_of_fields ?_ ?_ ?_ hstop
  · exact ((setStoredRefresh_timerNav _ _).2.1).trans he.2.1
  · exact ((setStoredRefresh_timerNav _ _).1).trans he.1
  · exact ((setStoredRefresh_timerNav _ _).2.2.1).trans he.2.2.1

theorem login_mirrors {w : World} (net : List FetchResult)
    (email password : String) (h : storeMirrors w) :
    storeMirrors (login w net email password).world := by
  unfold login
  dsimp only
  split
  · exact apiCall_mirrors _ _ _ _ _ h
  · exact storeMirrors_start (storeMirrors_update _ _ _ _)

theorem initAuth_mirrors {w : World} (net : List FetchResult)
    (h : storeMirrors w) : storeMirrors (initAuth w net).world := by
  unfold initAuth
  dsimp only
  split
  · split
    · exact refreshToken_mirrors _ _ h
    · exact storeMirrors_start (refreshToken_mirrors _ _ h)
  · exact h

theorem logout_mirrors (w : World) (net : List FetchResult) :
    storeMirrors (logout w net).world := by
  unfold logout
  dsimp only
  unfold storeMirrors setStoredRefresh
  simp [truthy]

theorem refreshTick_logoutCalls (w : World) (net : List FetchResult) :
    (refreshTick w net).logoutCalls =
      if exOk (refreshToken w net).result then 0 else 1 := by
  unfold refreshTick
  dsimp only
  split
  case h_1 res heq => simp [heq, exOk, refreshToken_logoutCalls]
  case h_2 e heq => simp [heq, exOk, refreshToken_logoutCalls]

theorem setStoredRefresh_navigations (t : Option String) (w : World) :
    (setStoredRefresh t w).navigations = w.navigations := by
  unfold setStoredRefresh; split <;> rfl

theorem setStoredRefresh_refreshInterval (t : Option String) (w : World) :
    (setStoredRefresh t w).refreshInterval = w.refreshInterval := by
  unfold setStoredRefresh; split <;> rfl

theorem setStoredRefresh_activeTimers (t : Option String) (w : World) :
    (setStoredRefresh t w).activeTimers = w.activeTimers := by
  unfold setStoredRefresh; split <;> rfl

/-- Example user record for concrete executions. -/
def adminUser : User :=
  { id := "u1", email := "a@x.com", role := "admin" }

/-- C5: a `refresh()` call made while the Credential Store holds no
refresh credential fails with the no-credential ("No hay refresh token")
condition, performs zero network calls, fires no logout, and leaves the
Session, the store and the rest of the world unchanged. -/
theorem refreshToken_no_credential_fails_fast (w : World)
    (net : List FetchResult) (h : getStoredRefresh w = none) :
    (refreshToken w net).result = .error (.msg "No hay refresh token") ∧
    (refreshToken w net).trace = [] ∧
    (refreshToken w net).net = net ∧
    (refreshToken w net).world = w ∧
    (refreshToken w net).logoutCalls = 0 := by
  unfold refreshToken
  rw [h]
  simp [truthy]

/-- Witness for `refreshToken_no_credential_fails_fast` at a concrete
world and network script. -/
theorem refreshToken_no_credential_fails_fast_witness :
    (refreshToken (baseWorld none) [FetchResult.netErr]).result
        = .error (.msg "No hay refresh token") ∧
    (refreshToken (baseWorld none) [FetchResult.netErr]).trace = [] ∧
    (refreshToken (baseWorld none) [FetchResult.netErr]).world
        = baseWorld none := by
  have h := refreshToken_no_credential_fails_fast (baseWorld none)
    [FetchResult.netErr] rfl
  exact ⟨h.1, h.2.1, h.2.2.2.1⟩

/-- C3: `logout()` never fails outward — whatever the remote logout
request does (succeed, non-2xx, network error), the result is success,
`authState` is reset to all-absent, the stored refresh credential slot
is removed, the navigation to the unauthenticated landing page is
performed, and (in a well-formed timer state) the renewal timer is
stopped. -/
theorem logout_always_cleans (w : World) (net : List FetchResult) :
    (logout w net).result = .ok () ∧
    (logout w net).world.authState = emptyAuth ∧
    (logout w net).world.storedRefresh = none ∧
    (logout w net).world.navigations = w.navigations ++ ["/index.html"] ∧
    (timerInv w → (logout w net).world.refreshInterval = none ∧
      (logout w net).world.activeTimers = []) := by
  have he := apiCall_timerNav (stopAutoRefresh w) net "/logout" "POST" none
  refine ⟨rfl, rfl, rfl, ?_, ?_⟩
  · unfold logout
    dsimp only
    rw [setStoredRefresh_navigations]
    dsimp only
    rw [he.2.2.2, stopAutoRefresh_navigations]
  · intro h
    obtain ⟨-, ha, hr⟩ := timerInv_stop h
    constructor
    · unfold logout
      dsimp only
      rw [setStoredRefresh_refreshInterval]
      dsimp only
      rw [he.1, hr]
    · unfold logout
      dsimp only
      rw [setStoredRefresh_activeTimers]
      dsimp only
      rw [he.2.1, ha]

/-- Witness for `logout_always_cleans`: the timer hypothesis discharged
at a concrete world where a timer is running and the remote logout fails
with a network error. -/
theorem logout_always_cleans_witness :
    (logout (startAutoRefresh (baseWorld (some "R1"))) [FetchResult.netErr]).result = .ok () ∧
    (logout (startAutoRefresh (baseWorld (some "R1"))) [FetchResult.netErr]).world.storedRefresh = none ∧
    (logout (startAutoRefresh (baseWorld (some "R1"))) [FetchResult.netErr]).world.refreshInterval = none ∧
    (logout (startAutoRefresh (baseWorld (some "R1"))) [FetchResult.netErr]).world.activeTimers = [] := by
  have h := logout_always_cleans (startAutoRefresh (baseWorld (some "R1")))
    [FetchResult.netErr]
  have ht := h.2.2.2.2 (by decide)
  exact ⟨h.1, h.2.2.1, ht.1, ht.2⟩

/-- C9 counterexample: with no user profile loaded, `hasRole` returns
the short-circuited `null` of `authState.user && ...`, which is not the
boolean `false` the claim promises. -/
theorem hasRole_null_not_false_cex :
    hasRole (baseWorld none) ["admin"] ≠ some false ∧
    hasRole (baseWorld none) ["admin"] = none := by
  decide

/-- C9 (amended): `hasRole(...roles)` never throws and its result is
truthy exactly when a user profile is loaded whose role is a member of
the supplied role set; when no profile is loaded the result is the
short-circuited `null` — a falsy value, but not the boolean `false`. -/
theorem hasRole_truthiness (w : World) (roles : List String) :
    ((hasRole w roles).getD false = true ↔
      ∃ u, w.authState.user = some u ∧ u.role ∈ roles) ∧
    (w.authState.user = none →
      hasRole w roles = none ∧ hasRole w roles ≠ some false) := by
  unfold hasRole
  cases h : w.authState.user with
  | none => simp
  | some u => simp

/-- Witness for `hasRole_truthiness` with its hypothesis discharged at a
concrete world with a loaded admin profile and at one without. -/
theorem hasRole_truthiness_witness :
    hasRole (baseWorld none) ["viewer"] = none := by
  exact ((hasRole_truthiness (baseWorld none) ["viewer"]).2 rfl).1

theorem fetchStep_net (w : World) (net : List FetchResult)
    (e m : String) (b : Option ReqBody) (v : Via) :
    (fetchStep w net e m b v).net = net.tail := by
  unfold fetchStep
  cases net with
  | nil => rfl
  | cons f rest =>
    cases f with
    | netErr => rfl
    | resolved st rb =>
      dsimp only
      split
      · cases rb <;> rfl
      · rfl

theorem fetchStep_result_via (w : World) (net : List FetchResult)
    (e m : String) (b : Option ReqBody) (v1 v2 : Via) :
    (fetchStep w net e m b v1).result = (fetchStep w net e m b v2).result := by
  unfold fetchStep
  cases net with
  | nil => rfl
  | cons f rest =>
    cases f with
    | netErr => rfl
    | resolved st rb =>
      dsimp only
      split
      · cases rb <;> rfl
      · rfl

theorem ne401_of_responseOk {st : Nat} (hok : responseOk st = true) :
    (st == 401) = false := by
  unfold responseOk at hok
  simp only [Bool.and_eq_true, decide_eq_true_eq] at hok
  have hne : st ≠ 401 := by omega
  simpa using hne

/-- When the stored refresh credential is truthy and the refresh
endpoint answers 2xx with a JSON body, `refreshToken` succeeds and
installs the payload in memory and in the store. -/
theorem refreshToken_ok (w : World) (rest : List FetchResult) (st : Nat)
    (rb : Body) (ht : truthy (getStoredRefresh w) = true)
    (hok : responseOk st = true) (hnj : rb ≠ .notJson) :
    refreshToken w (.resolved st rb :: rest) =
      ⟨.ok rb,
        setStoredRefresh rb.refreshTokenF
          { w with authState :=
              { access := rb.accessTokenF, refresh := rb.refreshTokenF,
                user := rb.userF } },
        rest,
        [mkRequest w "/refresh" "POST"
          (some (.refreshBody ((getStoredRefresh w).getD ""))) .call],
        0⟩ := by
  cases rb with
  | notJson => exact absurd rfl hnj
  | obj a r u e m =>
    unfold refreshToken fetchStep
    dsimp only
    rw [if_pos ht, if_pos hok]

/-- A login answered 2xx with a JSON body succeeds and installs the
payload: the session is replaced, the refresh token persisted, and the
renewal timer started. -/
theorem login_ok (w : World) (rest : List FetchResult) (st : Nat)
    (rb : Body) (email password : String) (hok : responseOk st = true)
    (hnj : rb ≠ .notJson) :
    login w (.resolved st rb :: rest) email password =
      ⟨.ok rb,
        startAutoRefresh (setStoredRefresh rb.refreshTokenF
          { w with authState :=
              { access := rb.accessTokenF, refresh := rb.refreshTokenF,
                user := rb.userF } }),
        rest,
        [mkRequest w "/login" "POST"
          (some (.loginBody email password)) .call],
        0⟩ := by
  have h401 := ne401_of_responseOk hok
  cases rb with
  | notJson => exact absurd rfl hnj
  | obj a r u e m =>
    unfold login apiCall
    dsimp only
    rw [h401]
    simp only [Bool.false_and, Bool.false_eq_true, if_false]
    rw [if_pos hok]

/-- C8 counterexample: on a concrete successful renewal, the request
issued by the refresh operation is tagged as coming from `apiCall` (the
401-retry-capable operation), not from the storage-only `apiRequest`
variant the claim names. -/
theorem refresh_storage_only_variant_cex :
    ((refreshToken (baseWorld (some "R1"))
        [FetchResult.resolved 200
          (Body.obj (some "A2") (some "R2") (some adminUser) none none)]).trace.all
      (fun rq => rq.via == Via.request)) = false := by
  decide

/-- C8 (amended): the refresh operation issues its network request
through the full `apiCall` operation; every request it issues goes to
the refresh endpoint, and on that endpoint `apiCall` coincides with the
storage-only `apiRequest` variant (steps 1–2 and 4–5 only) up to the
issuing-operation tag — same result, same world, same remaining script,
a single fetch, no retry and no fired logout. -/
theorem refresh_request_storage_only_behavior (w : World)
    (net : List FetchResult) (m : String) (b : Option ReqBody) :
    ((refreshToken w net).trace.all
      (fun rq => rq.via == Via.call && rq.endpoint == "/refresh")) = true ∧
    (apiCall w net "/refresh" m b).result
      = (apiRequest w net "/refresh" m b).result ∧
    (apiCall w net "/refresh" m b).world
      = (apiRequest w net "/refresh" m b).world ∧
    (apiCall w net "/refresh" m b).net
      = (apiRequest w net "/refresh" m b).net ∧
    (apiCall w net "/refresh" m b).logoutCalls = 0 ∧
    (apiCall w net "/refresh" m b).trace.map
        (fun rq => { rq with via := Via.request })
      = (apiRequest w net "/refresh" m b).trace ∧
    (apiCall w net "/refresh" m b).trace.length = 1 := by
  have hc := apiCall_refresh_eq_fetchStep w net m b
  refine ⟨?_, ?_, ?_, ?_, ?_, ?_, ?_⟩
  · rw [refreshToken_trace]
    split <;> simp [mkRequest]
  · rw [hc]
    unfold apiRequest
    exact fetchStep_result_via _ _ _ _ _ _ _
  · rw [hc]
    unfold apiRequest
    rw [fetchStep_world, fetchStep_world]
  · rw [hc]
    unfold apiRequest
    rw [fetchStep_net, fetchStep_net]
  · rw [hc, fetchStep_logoutCalls]
  · rw [hc]
    unfold apiRequest
    rw [fetchStep_trace, fetchStep_trace]
    simp [mkRequest]
  · rw [hc, fetchStep_trace]
    rfl

theorem truthy_none : truthy none = false := rfl

theorem truthy_some_empty : truthy (some "") = false := by decide

/-- C10: a successful login or renewal whose response carries an
empty-string refresh token removes the Credential Store slot (the falsy
write removes rather than stores), so `isAuthenticated()` is false
immediately afterwards even though the operation reported success. -/
theorem empty_refresh_token_clears_store (w : World)
    (rest : List FetchResult) (st : Nat) (a : Option String)
    (u : Option User) (e m : Option String) (email password : String)
    (hok : responseOk st = true) :
    (exOk (login w
        (.resolved st (Body.obj a (some "") u e m) :: rest)
        email password).result = true ∧
      (login w (.resolved st (Body.obj a (some "") u e m) :: rest)
        email password).world.storedRefresh = none ∧
      isAuthenticated (login w
        (.resolved st (Body.obj a (some "") u e m) :: rest)
        email password).world = false) ∧
    (truthy (getStoredRefresh w) = true →
      exOk (refreshToken w
        (.resolved st (Body.obj a (some "") u e m) :: rest)).result = true ∧
      (refreshToken w
        (.resolved st (Body.obj a (some "") u e m) :: rest)).world.storedRefresh
        = none ∧
      isAuthenticated (refreshToken w
        (.resolved st (Body.obj a (some "") u e m) :: rest)).world
        = false) := by
  have hl := login_ok w rest st (Body.obj a (some "") u e m) email password
    hok (by simp)
  constructor
  · rw [hl]
    refine ⟨rfl, ?_, ?_⟩
    · dsimp only
      rw [startAutoRefresh_storedRefresh, setStoredRefresh_stored]
      simp [Body.refreshTokenF, truthy_some_empty, truthy_none]
    · unfold isAuthenticated getStoredRefresh
      dsimp only
      rw [startAutoRefresh_storedRefresh, setStoredRefresh_stored]
      simp [Body.refreshTokenF, truthy_some_empty, truthy_none]
  · intro ht
    have hr := refreshToken_ok w rest st (Body.obj a (some "") u e m) ht
      hok (by simp)
    rw [hr]
    refine ⟨rfl, ?_, ?_⟩
    · dsimp only
      rw [setStoredRefresh_stored]
      simp [Body.refreshTokenF, truthy_some_empty, truthy_none]
    · unfold isAuthenticated getStoredRefresh
      dsimp only
      rw [setStoredRefresh_stored]
      simp [Body.refreshTokenF, truthy_some_empty, truthy_none]

/-- Witness for `empty_refresh_token_clears_store` at a concrete world
holding an old credential, with both hypotheses discharged. -/
theorem empty_refresh_token_clears_store_witness :
    responseOk 200 = true ∧
    exOk (login (baseWorld (some "Rold"))
        [FetchResult.resolved 200
          (Body.obj (some "A1") (some "") (some adminUser) none none)]
        "a@x.com" "pw").result = true ∧
    (login (baseWorld (some "Rold"))
        [FetchResult.resolved 200
          (Body.obj (some "A1") (some "") (some adminUser) none none)]
        "a@x.com" "pw").world.storedRefresh = none ∧
    isAuthenticated (refreshToken (baseWorld (some "Rold"))
        [FetchResult.resolved 200
          (Body.obj (some "A1") (some "") (some adminUser) none none)]).world
      = false := by
  have h := empty_refresh_token_clears_store (baseWorld (some "Rold")) []
    200 (some "A1") (some adminUser) none none "a@x.com" "pw" (by decide)
  exact ⟨by decide, h.1.1, h.1.2.1, (h.2 (by decide)).2.2⟩

/-- C4 counterexample: a login that succeeds with an empty-string
refresh token leaves the in-memory refresh credential (`""`) different
from the Credential Store slot (removed), refuting the equality claimed
after every completed operation. -/
theorem login_empty_refresh_mirror_cex :
    exOk (login (baseWorld none)
        [FetchResult.resolved 200
          (Body.obj (some "A1") (some "") (some adminUser) none none)]
        "a@x.com" "pw").result = true ∧
    (login (baseWorld none)
        [FetchResult.resolved 200
          (Body.obj (some "A1") (some "") (some adminUser) none none)]
        "a@x.com" "pw").world.authState.refresh ≠
      (login (baseWorld none)
        [FetchResult.resolved 200
          (Body.obj (some "A1") (some "") (some adminUser) none none)]
        "a@x.com" "pw").world.storedRefresh := by
  decide

theorem login_ok_refresh_field (w : World) (net : List FetchResult)
    (email password : String) (res : Body)
    (hres : (login w net email password).result = .ok res) :
    (login w net email password).world.authState.refresh
      = res.refreshTokenF ∧
    (login w net email password).world.storedRefresh =
      (if truthy res.refreshTokenF then res.refreshTokenF else none) := by
  unfold login at hres ⊢
  dsimp only at hres ⊢
  split at hres
  case h_1 e heq => simp at hres
  case h_2 res' heq =>
    dsimp only at hres
    injection hres with hres'
    subst hres'
    constructor
    · rw [startAutoRefresh_authState, setStoredRefresh_authState]
    · rw [startAutoRefresh_storedRefresh, setStoredRefresh_stored]

/-- C4 (amended): after every completed lifecycle operation the
Credential Store slot mirrors the in-memory refresh credential in the
truthiness-aware sense — it holds exactly the in-memory value when that
value is truthy (a non-empty string) and is absent otherwise.  A
successful login sets both to the same (non-empty) server value, and
logout clears both; when the server supplies an empty-string token,
memory holds `""` while the slot is removed. -/
theorem store_mirrors_refresh_after_ops (w : World) (net : List FetchResult)
    (email password : String) (h : storeMirrors w) :
    storeMirrors (login w net email password).world ∧
    storeMirrors (refreshToken w net).world ∧
    storeMirrors (initAuth w net).world ∧
    storeMirrors (logout w net).world ∧
    (∀ e m b, storeMirrors (apiCall w net e m b).world) ∧
    (∀ res, (login w net email password).result = .ok res →
      truthy res.refreshTokenF = true →
      (login w net email password).world.authState.refresh
        = res.refreshTokenF ∧
      (login w net email password).world.storedRefresh
        = res.refreshTokenF) ∧
    ((logout w net).world.authState.refresh = none ∧
      (logout w net).world.storedRefresh = none) := by
  refine ⟨login_mirrors _ _ _ h, refreshToken_mirrors _ _ h,
    initAuth_mirrors _ h, logout_mirrors _ _,
    fun e m b => apiCall_mirrors _ _ _ _ _ h, ?_, rfl, rfl⟩
  intro res hres htr
  have hf := login_ok_refresh_field w net email password res hres
  exact ⟨hf.1, by rw [hf.2, if_pos htr]⟩

/-- Witness for `store_mirrors_refresh_after_ops`: all hypotheses
discharged at a concrete fresh world and a successful login with a
non-empty refresh token. -/
theorem store_mirrors_refresh_after_ops_witness :
    storeMirrors (baseWorld none) ∧
    (login (baseWorld none)
        [FetchResult.resolved 200
          (Body.obj (some "A1") (some "R1") (some adminUser) none none)]
        "a@x.com" "pw").world.authState.refresh = some "R1" ∧
    (login (baseWorld none)
        [FetchResult.resolved 200
          (Body.obj (some "A1") (some "R1") (some adminUser) none none)]
        "a@x.com" "pw").world.storedRefresh = some "R1" := by
  have h := store_mirrors_refresh_after_ops (baseWorld none)
    [FetchResult.resolved 200
      (Body.obj (some "A1") (some "R1") (some adminUser) none none)]
    "a@x.com" "pw" (by decide)
  have h6 := h.2.2.2.2.2.1
    (Body.obj (some "A1") (some "R1") (some adminUser) none none)
    (by decide) (by decide)
  exact ⟨by decide, h6.1, h6.2⟩

/-- C2 counterexample: a login request answered 401 while an old
refresh credential sits in the store runs the 401-retry protocol: the
inner refresh succeeds and rotates the store (R1 becomes R2) and
overwrites the Session, the retried login fails, a logout is fired, and
the error is surfaced — the Session record and Credential Store are not
left as they were. -/
theorem login_401_perturbs_state_cex :
    exOk (login (baseWorld (some "R1"))
        [FetchResult.resolved 401
          (Body.obj none none none (some "Unauthorized") none),
         FetchResult.resolved 200
          (Body.obj (some "A2") (some "R2") (some adminUser) none none),
         FetchResult.resolved 500
          (Body.obj none none none (some "boom") none)]
        "a@x.com" "pw").result = false ∧
    (login (baseWorld (some "R1"))
        [FetchResult.resolved 401
          (Body.obj none none none (some "Unauthorized") none),
         FetchResult.resolved 200
          (Body.obj (some "A2") (some "R2") (some adminUser) none none),
         FetchResult.resolved 500
          (Body.obj none none none (some "boom") none)]
        "a@x.com" "pw").world.storedRefresh
      ≠ (baseWorld (some "R1")).storedRefresh ∧
    (login (baseWorld (some "R1"))
        [FetchResult.resolved 401
          (Body.obj none none none (some "Unauthorized") none),
         FetchResult.resolved 200
          (Body.obj (some "A2") (some "R2") (some adminUser) none none),
         FetchResult.resolved 500
          (Body.obj none none none (some "boom") none)]
        "a@x.com" "pw").world.authState
      ≠ (baseWorld (some "R1")).authState ∧
    (login (baseWorld (some "R1"))
        [FetchResult.resolved 401
          (Body.obj none none none (some "Unauthorized") none),
         FetchResult.resolved 200
          (Body.obj (some "A2") (some "R2") (some adminUser) none none),
         FetchResult.resolved 500
          (Body.obj none none none (some "boom") none)]
        "a@x.com" "pw").logoutCalls = 1 := by
  decide

/-- C2 (amended): a login whose request fails with a network error or
with a non-2xx status other than 401 surfaces the error and leaves the
whole world — Session record, Credential Store and renewal timer —
exactly as it was, firing no logout; a 401 from the login endpoint
instead enters the 401-retry protocol, which can rotate the stored
refresh credential, overwrite the Session via the inner refresh, and
invoke `logout()`. -/
theorem login_non401_failure_preserves_state (w : World)
    (rest : List FetchResult) (st : Nat) (rb : Body)
    (email password : String) :
    ((login w (.netErr :: rest) email password).result = .error .network ∧
      (login w (.netErr :: rest) email password).world = w ∧
      (login w (.netErr :: rest) email password).logoutCalls = 0) ∧
    (responseOk st = false → (st == 401) = false →
      (login w (.resolved st rb :: rest) email password).result
        = .error (.msg (errorMessageOf rb)) ∧
      (login w (.resolved st rb :: rest) email password).world = w ∧
      (login w (.resolved st rb :: rest) email password).logoutCalls
        = 0) := by
  constructor
  · unfold login apiCall
    dsimp only
    exact ⟨rfl, rfl, rfl⟩
  · intro hok h401
    unfold login apiCall
    dsimp only
    rw [h401]
    simp only [Bool.false_and, Bool.false_eq_true, if_false]
    rw [hok]
    simp [Bool.false_eq_true]

/-- Witness for `login_non401_failure_preserves_state`: the non-401
hypotheses discharged at status 400 on a concrete world, plus the
network-error conjunct. -/
theorem login_non401_failure_preserves_state_witness :
    (login (baseWorld (some "R1")) [FetchResult.netErr] "a@x.com"
      "pw").world = baseWorld (some "R1") ∧
    responseOk 400 = false ∧
    ((400 : Nat) == 401) = false ∧
    (login (baseWorld (some "R1"))
        [FetchResult.resolved 400
          (Body.obj none none none (some "Bad") none)]
        "a@x.com" "pw").world = baseWorld (some "R1") ∧
    (login (baseWorld (some "R1"))
        [FetchResult.resolved 400
          (Body.obj none none none (some "Bad") none)]
        "a@x.com" "pw").result = .error (.msg "Bad") := by
  have h := login_non401_failure_preserves_state (baseWorld (some "R1"))
    [] 400 (Body.obj none none none (some "Bad") none) "a@x.com" "pw"
  have h2 := h.2 (by decide) (by decide)
  refine ⟨h.1.2.1, by decide, by decide, h2.2.1, ?_⟩
  rw [h2.1]
  decide

/-- C6: `initAuth()` fails fast with the "No autenticado" condition and
zero network calls when no refresh credential is stored; otherwise it
delegates to `refreshToken()`: a failure propagates unchanged to the
caller with no redirect and no logout, and a success additionally
starts the renewal timer. -/
theorem initAuth_behavior (w : World) (net : List FetchResult) :
    (getStoredRefresh w = none →
      (initAuth w net).result = .error (.msg "No autenticado") ∧
      (initAuth w net).world = w ∧
      (initAuth w net).trace = [] ∧
      (initAuth w net).net = net ∧
      (initAuth w net).logoutCalls = 0) ∧
    (truthy (getStoredRefresh w) = true →
      (∀ e, (refreshToken w net).result = .error e →
        (initAuth w net).result = .error e ∧
        (initAuth w net).world = (refreshToken w net).world ∧
        (initAuth w net).world.navigations = w.navigations ∧
        (initAuth w net).world.refreshInterval = w.refreshInterval ∧
        (initAuth w net).logoutCalls = 0) ∧
      (∀ res, (refreshToken w net).result = .ok res →
        (initAuth w net).result = .ok res ∧
        (initAuth w net).world
          = startAutoRefresh (refreshToken w net).world ∧
        (initAuth w net).world.refreshInterval.isSome = true ∧
        (initAuth w net).world.navigations = w.navigations ∧
        (initAuth w net).logoutCalls = 0)) := by
  constructor
  · intro h
    unfold initAuth
    rw [h]
    simp [truthy]
  · intro ht
    constructor
    · intro e heq
      unfold initAuth
      dsimp only
      rw [if_pos ht, heq]
      refine ⟨rfl, rfl, ?_, ?_, refreshToken_logoutCalls w net⟩
      · exact (refreshToken_timerNav w net).2.2.2
      · exact (refreshToken_timerNav w net).1
    · intro res heq
      unfold initAuth
      dsimp only
      rw [if_pos ht, heq]
      refine ⟨rfl, rfl, rfl, ?_, refreshToken_logoutCalls w net⟩
      rw [startAutoRefresh_navigations]
      exact (refreshToken_timerNav w net).2.2.2

/-- Witness for `initAuth_behavior`: the fail-fast branch at an empty
store and the delegate-and-start-timer branch at a stored credential,
both at concrete inputs. -/
theorem initAuth_behavior_witness :
    (initAuth (baseWorld none) []).result
      = .error (.msg "No autenticado") ∧
    (initAuth (baseWorld none) []).trace = [] ∧
    (initAuth (baseWorld (some "R1"))
        [FetchResult.resolved 200
          (Body.obj (some "A2") (some "R2") (some adminUser) none none)]).result
      = .ok (Body.obj (some "A2") (some "R2") (some adminUser) none none) ∧
    (initAuth (baseWorld (some "R1"))
        [FetchResult.resolved 200
          (Body.obj (some "A2") (some "R2") (some adminUser) none
            none)]).world.refreshInterval.isSome = true ∧
    (initAuth (baseWorld (some "R1"))
        [FetchResult.resolved 200
          (Body.obj (some "A2") (some "R2") (some adminUser) none
            none)]).logoutCalls = 0 := by
  have h1 := (initAuth_behavior (baseWorld none) []).1 rfl
  have h2 := ((initAuth_behavior (baseWorld (some "R1"))
      [FetchResult.resolved 200
        (Body.obj (some "A2") (some "R2") (some adminUser) none none)]).2
    (by decide)).2
    (Body.obj (some "A2") (some "R2") (some adminUser) none none)
    (by decide)
  exact ⟨h1.1, h1.2.2.1, h2.1, h2.2.2.1, h2.2.2.2.2⟩

/-- C7: at most one renewal timer is ever active — `startAutoRefresh`
cancels any existing timer before scheduling exactly one new one,
`stopAutoRefresh` leaves no active timer and is idempotent, every
lifecycle operation preserves the single-timer bookkeeping, and a timer
tick fires `logout()` exactly when its `refreshToken()` call fails
(and never throws itself). -/
theorem renewal_timer_single_instance (w : World) (net : List FetchResult)
    (email password : String) (h : timerInv w) :
    timerInv (startAutoRefresh w) ∧
    (startAutoRefresh w).activeTimers.length = 1 ∧
    timerInv (stopAutoRefresh w) ∧
    (stopAutoRefresh w).activeTimers = [] ∧
    (stopAutoRefresh w).refreshInterval = none ∧
    stopAutoRefresh (stopAutoRefresh w) = stopAutoRefresh w ∧
    ((refreshTick w net).logoutCalls
      = if exOk (refreshToken w net).result then 0 else 1) ∧
    (refreshTick w net).result = .ok () ∧
    timerInv (login w net email password).world ∧
    timerInv (refreshToken w net).world ∧
    timerInv (initAuth w net).world ∧
    timerInv (logout w net).world := by
  obtain ⟨hs1, hs2, hs3⟩ := timerInv_stop h
  obtain ⟨ht1, ht2, ht3⟩ := timerInv_start h
  refine ⟨ht1, ?_, hs1, hs2, hs3, stopAutoRefresh_idem w,
    refreshTick_logoutCalls w net, ?_, timerInv_login _ _ _ h,
    timerInv_refreshToken _ h, timerInv_initAuth _ h, timerInv_logout _ h⟩
  · rw [ht2]; rfl
  · unfold refreshTick
    dsimp only
    split <;> rfl

/-- Witness for `renewal_timer_single_instance` at a concrete
well-formed world whose stored credential is present and whose refresh
attempt is answered 500 (so the tick fires exactly one logout). -/
theorem renewal_timer_single_instance_witness :
    timerInv (baseWorld (some "R1")) ∧
    (startAutoRefresh (baseWorld (some "R1"))).activeTimers.length = 1 ∧
    ((refreshTick (baseWorld (some "R1"))
        [FetchResult.resolved 500
          (Body.obj none none none (some "boom") none)]).logoutCalls
      = if exOk (refreshToken (baseWorld (some "R1"))
          [FetchResult.resolved 500
            (Body.obj none none none (some "boom") none)]).result
        then 0 else 1) ∧
    timerInv (logout (baseWorld (some "R1"))
      [FetchResult.resolved 500
        (Body.obj none none none (some "boom") none)]).world := by
  have h := renewal_timer_single_instance (baseWorld (some "R1"))
    [FetchResult.resolved 500 (Body.obj none none none (some "boom") none)]
    "a@x.com" "pw" (by decide)
  exact ⟨by decide, h.2.1, h.2.2.2.2.2.2.1,
    h.2.2.2.2.2.2.2.2.2.2.2⟩

theorem beq_false_of_ne {endpoint : String} (hne : endpoint ≠ "/refresh") :
    (endpoint == "/refresh") = false := by
  simpa using hne

theorem retry_cond_true {endpoint : String} (hne : endpoint ≠ "/refresh") :
    ((401 == 401) && (endpoint != "/refresh")) = true := by
  simp [bne, beq_false_of_ne hne]

/-- In the 401-retry branch, a failing inner refresh surfaces its error,
fires one logout and performs no retry. -/
theorem apiCall_401_err (w : World) (rest : List FetchResult)
    (endpoint method : String) (body : Option ReqBody) (rbody : Body)
    (e : Err) (hne : endpoint ≠ "/refresh")
    (heq : (refreshToken w rest).result = .error e) :
    apiCall w (.resolved 401 rbody :: rest) endpoint method body =
      ⟨.error e, (refreshToken w rest).world, (refreshToken w rest).net,
        mkRequest w endpoint method body .call :: (refreshToken w rest).trace,
        (refreshToken w rest).logoutCalls + 1⟩ := by
  unfold apiCall
  dsimp only
  rw [retry_cond_true hne, heq]
  rfl

/-- In the 401-retry branch with a successful inner refresh, a 2xx
JSON-parseable retry response is returned to the caller with no
logout fired. -/
theorem apiCall_401_retry_ok (w : World) (rest rest2 : List FetchResult)
    (endpoint method : String) (body : Option ReqBody) (rbody b2 : Body)
    (res : Body) (st2 : Nat) (hne : endpoint ≠ "/refresh")
    (heq : (refreshToken w rest).result = .ok res)
    (hnet : (refreshToken w rest).net = .resolved st2 b2 :: rest2)
    (hok2 : responseOk st2 = true) (hnj : b2 ≠ .notJson) :
    apiCall w (.resolved 401 rbody :: rest) endpoint method body =
      ⟨.ok b2, (refreshToken w rest).world, rest2,
        mkRequest w endpoint method body .call :: (refreshToken w rest).trace
          ++ [retryRequest (refreshToken w rest).world endpoint method body],
        (refreshToken w rest).logoutCalls⟩ := by
  cases b2 with
  | notJson => exact absurd rfl hnj
  | obj a r u e m =>
    unfold apiCall
    dsimp only
    rw [retry_cond_true hne, heq, hnet]
    dsimp only
    rw [hok2]
    rfl

/-- In the 401-retry branch with a successful inner refresh, a non-2xx
retry response raises "Retry failed" and fires one logout. -/
theorem apiCall_401_retry_fail (w : World) (rest rest2 : List FetchResult)
    (endpoint method : String) (body : Option ReqBody) (rbody b2 : Body)
    (res : Body) (st2 : Nat) (hne : endpoint ≠ "/refresh")
    (heq : (refreshToken w rest).result = .ok res)
    (hnet : (refreshToken w rest).net = .resolved st2 b2 :: rest2)
    (hok2 : responseOk st2 = false) :
    apiCall w (.resolved 401 rbody :: rest) endpoint method body =
      ⟨.error (.msg "Retry failed"), (refreshToken w rest).world, rest2,
        mkRequest w endpoint method body .call :: (refreshToken w rest).trace
          ++ [retryRequest (refreshToken w rest).world endpoint method body],
        (refreshToken w rest).logoutCalls + 1⟩ := by
  unfold apiCall
  dsimp only
  rw [retry_cond_true hne, heq, hnet]
  dsimp only
  rw [hok2]
  rfl

/-- In the 401-retry branch with a successful inner refresh, a rejected
retry fetch surfaces the network failure and fires one logout. -/
theorem apiCall_401_retry_netErr (w : World) (rest rest2 : List FetchResult)
    (endpoint method : String) (body : Option ReqBody) (rbody : Body)
    (res : Body) (hne : endpoint ≠ "/refresh")
    (heq : (refreshToken w rest).result = .ok res)
    (hnet : (refreshToken w rest).net = .netErr :: rest2) :
    apiCall w (.resolved 401 rbody :: rest) endpoint method body =
      ⟨.error .network, (refreshToken w rest).world, rest2,
        mkRequest w endpoint method body .call :: (refreshToken w rest).trace
          ++ [retryRequest (refreshToken w rest).world endpoint method body],
        (refreshToken w rest).logoutCalls + 1⟩ := by
  unfold apiCall
  dsimp only
  rw [retry_cond_true hne, heq, hnet]
  rfl

/-- In the 401-retry branch with a successful inner refresh, an
exhausted network script behaves like a rejected retry fetch. -/
theorem apiCall_401_retry_exhausted (w : World) (rest : List FetchResult)
    (endpoint method : String) (body : Option ReqBody) (rbody : Body)
    (res : Body) (hne : endpoint ≠ "/refresh")
    (heq : (refreshToken w rest).result = .ok res)
    (hnet : (refreshToken w rest).net = []) :
    apiCall w (.resolved 401 rbody :: rest) endpoint method body =
      ⟨.error .network, (refreshToken w rest).world, [],
        mkRequest w endpoint method body .call :: (refreshToken w rest).trace
          ++ [retryRequest (refreshToken w rest).world endpoint method body],
        (refreshToken w rest).logoutCalls + 1⟩ := by
  unfold apiCall
  dsimp only
  rw [retry_cond_true hne, heq, hnet]
  rfl

/-- In the 401-retry branch with a successful inner refresh, a 2xx retry
answer whose body is not JSON propagates the parse rejection without
firing a logout (the `return retry.json()` promise escapes the
try/catch). -/
theorem apiCall_401_retry_parse (w : World) (rest rest2 : List FetchResult)
    (endpoint method : String) (body : Option ReqBody) (rbody : Body)
    (res : Body) (st2 : Nat) (hne : endpoint ≠ "/refresh")
    (heq : (refreshToken w rest).result = .ok res)
    (hnet : (refreshToken w rest).net = .resolved st2 .notJson :: rest2)
    (hok2 : responseOk st2 = true) :
    apiCall w (.resolved 401 rbody :: rest) endpoint method body =
      ⟨.error .parse, (refreshToken w rest).world, rest2,
        mkRequest w endpoint method body .call :: (refreshToken w rest).trace
          ++ [retryRequest (refreshToken w rest).world endpoint method body],
        (refreshToken w rest).logoutCalls⟩ := by
  unfold apiCall
  dsimp only
  rw [retry_cond_true hne, heq, hnet]
  dsimp only
  rw [hok2]
  rfl

theorem requestsTo_refreshToken (w : World) (rest : List FetchResult)
    (endpoint : String) (hne : endpoint ≠ "/refresh") :
    requestsTo (refreshToken w rest).trace endpoint = 0 := by
  have hne2 : ("/refresh" : String) ≠ endpoint := fun hh => hne hh.symm
  rw [refreshToken_trace]
  split <;> simp [requestsTo, mkRequest, hne2]

theorem requestsTo_cons_append (tr : List Request) (endpoint : String)
    (req0 rq : Request) (h0 : requestsTo tr endpoint = 0)
    (hr1 : req0.endpoint = endpoint) (hr2 : rq.endpoint = endpoint) :
    requestsTo (req0 :: tr ++ [rq]) endpoint = 2 ∧
    requestsTo (req0 :: tr) endpoint = 1 := by
  unfold requestsTo at h0 ⊢
  rw [List.length_eq_zero] at h0
  simp [List.filter_cons, List.filter_append, h0, hr1, hr2]

/-- C1: the 401-retry-once protocol of the authenticated call — on a
401 from an endpoint other than refresh, `refreshToken()` runs first:
if it fails, its error is surfaced, one `logout()` fires and no retry is
sent; if it succeeds, the identical request (same endpoint, method and
body) is resent exactly once carrying the post-refresh access
credential — a 2xx retry is returned to the caller with no logout while
a non-2xx or rejected retry surfaces the error and fires one
`logout()`; in every outcome at most one retry is ever attempted ( at
most two requests to the endpoint); and a 401 on the refresh endpoint
itself triggers no retry, no logout, and is handled as a plain non-2xx
response. -/
theorem apiCall_retry_once_protocol (w : World) (rbody : Body)
    (rest : List FetchResult) (endpoint method : String)
    (body : Option ReqBody) :
    (endpoint ≠ "/refresh" →
      (∀ e, (refreshToken w rest).result = .error e →
        (apiCall w (.resolved 401 rbody :: rest) endpoint method
            body).result = .error e ∧
        (apiCall w (.resolved 401 rbody :: rest) endpoint method
            body).logoutCalls = 1 ∧
        (apiCall w (.resolved 401 rbody :: rest) endpoint method
            body).trace
          = mkRequest w endpoint method body .call
              :: (refreshToken w rest).trace ∧
        requestsTo (apiCall w (.resolved 401 rbody :: rest) endpoint
            method body).trace endpoint = 1) ∧
      (∀ res, (refreshToken w rest).result = .ok res →
        (apiCall w (.resolved 401 rbody :: rest) endpoint method
            body).trace
          = mkRequest w endpoint method body .call
              :: (refreshToken w rest).trace
              ++ [retryRequest (refreshToken w rest).world endpoint
                    method body] ∧
        requestsTo (apiCall w (.resolved 401 rbody :: rest) endpoint
            method body).trace endpoint = 2 ∧
        (∀ st2 b2 rest2,
          (refreshToken w rest).net = .resolved st2 b2 :: rest2 →
          (responseOk st2 = true → b2 ≠ .notJson →
            (apiCall w (.resolved 401 rbody :: rest) endpoint method
                body).result = .ok b2 ∧
            (apiCall w (.resolved 401 rbody :: rest) endpoint method
                body).logoutCalls = 0) ∧
          (responseOk st2 = false →
            (apiCall w (.resolved 401 rbody :: rest) endpoint method
                body).result = .error (.msg "Retry failed") ∧
            (apiCall w (.resolved 401 rbody :: rest) endpoint method
                body).logoutCalls = 1)) ∧
        (∀ rest2, (refreshToken w rest).net = .netErr :: rest2 →
          (apiCall w (.resolved 401 rbody :: rest) endpoint method
              body).result = .error .network ∧
          (apiCall w (.resolved 401 rbody :: rest) endpoint method
              body).logoutCalls = 1)) ∧
      requestsTo (apiCall w (.resolved 401 rbody :: rest) endpoint
          method body).trace endpoint ≤ 2) ∧
    ((apiCall w (.resolved 401 rbody :: rest) "/refresh" method
        body).trace.length = 1 ∧
     (apiCall w (.resolved 401 rbody :: rest) "/refresh" method
        body).logoutCalls = 0 ∧
     (apiCall w (.resolved 401 rbody :: rest) "/refresh" method
        body).result = .error (.msg (errorMessageOf rbody))) := by
  constructor
  · intro hne
    have hlc := refreshToken_logoutCalls w rest
    have htr0 := requestsTo_refreshToken w rest endpoint hne
    have hcnt := requestsTo_cons_append (refreshToken w rest).trace
      endpoint (mkRequest w endpoint method body .call)
      (retryRequest (refreshToken w rest).world endpoint method body)
      htr0 rfl rfl
    refine ⟨?_, ?_, ?_⟩
    · intro e heq
      rw [apiCall_401_err w rest endpoint method body rbody e hne heq]
      refine ⟨rfl, ?_, rfl, hcnt.2⟩
      rw [hlc]
    · intro res heq
      have htrace : (apiCall w (.resolved 401 rbody :: rest) endpoint
          method body).trace
            = mkRequest w endpoint method body .call
                :: (refreshToken w rest).trace
                ++ [retryRequest (refreshToken w rest).world endpoint
                      method body] := by
        cases hnet : (refreshToken w rest).net with
        | nil =>
          rw [apiCall_401_retry_exhausted w rest endpoint method body
            rbody res hne heq hnet]
        | cons f rest2 =>
          cases f with
          | netErr =>
            rw [apiCall_401_retry_netErr w rest rest2 endpoint method
              body rbody res hne heq hnet]
          | resolved st2 b2 =>
            cases hok2 : responseOk st2 with
            | false =>
              rw [apiCall_401_retry_fail w rest rest2 endpoint method
                body rbody b2 res st2 hne heq hnet hok2]
            | true =>
              cases b2 with
              | notJson =>
                rw [apiCall_401_retry_parse w rest rest2 endpoint
                  method body rbody res st2 hne heq hnet hok2]
              | obj a2 r2 u2 e2 m2 =>
                rw [apiCall_401_retry_ok w rest rest2 endpoint method
                  body rbody (Body.obj a2 r2 u2 e2 m2) res st2 hne heq
                  hnet hok2 (by simp)]
      refine ⟨htrace, by rw [htrace]; exact hcnt.1, ?_, ?_⟩
      · intro st2 b2 rest2 hnet
        constructor
        · intro hok2 hnj
          rw [apiCall_401_retry_ok w rest rest2 endpoint method body
            rbody b2 res st2 hne heq hnet hok2 hnj]
          exact ⟨rfl, hlc⟩
        · intro hok2
          rw [apiCall_401_retry_fail w rest rest2 endpoint method body
            rbody b2 res st2 hne heq hnet hok2]
          refine ⟨rfl, ?_⟩
          rw [hlc]
      · intro rest2 hnet
        rw [apiCall_401_retry_netErr w rest rest2 endpoint method body
          rbody res hne heq hnet]
        refine ⟨rfl, ?_⟩
        rw [hlc]
    · cases hres : (refreshToken w rest).result with
      | error e =>
        rw [apiCall_401_err w rest endpoint method body rbody e hne
          hres]
        rw [hcnt.2]
        omega
      | ok res =>
        have htrace : (apiCall w (.resolved 401 rbody :: rest) endpoint
            method body).trace
              = mkRequest w endpoint method body .call
                  :: (refreshToken w rest).trace
                  ++ [retryRequest (refreshToken w rest).world endpoint
                        method body] := by
          cases hnet : (refreshToken w rest).net with
          | nil =>
            rw [apiCall_401_retry_exhausted w rest endpoint method body
              rbody res hne hres hnet]
          | cons f rest2 =>
            cases f with
            | netErr =>
              rw [apiCall_401_retry_netErr w rest rest2 endpoint method
                body rbody res hne hres hnet]
            | resolved st2 b2 =>
              cases hok2 : responseOk st2 with
              | false =>
                rw [apiCall_401_retry_fail w rest rest2 endpoint method
                  body rbody b2 res st2 hne hres hnet hok2]
              | true =>
                cases b2 with
                | notJson =>
                  rw [apiCall_401_retry_parse w rest rest2 endpoint
                    method body rbody res st2 hne hres hnet hok2]
                | obj a2 r2 u2 e2 m2 =>
                  rw [apiCall_401_retry_ok w rest rest2 endpoint method
                    body rbody (Body.obj a2 r2 u2 e2 m2) res st2 hne
                    hres hnet hok2 (by simp)]
        rw [htrace, hcnt.1]
  · rw [apiCall_refresh_eq_fetchStep]
    refine ⟨?_, fetchStep_logoutCalls _ _ _ _ _ _, rfl⟩
    rw [fetchStep_trace]
    rfl

/-- Witness for `apiCall_retry_once_protocol`: a 401 on a concrete
authenticated call to `/orders`, followed by a successful refresh and a
successful retry — the caller receives the retry body, no logout fires,
and exactly two requests to `/orders` appear in the trace. -/
theorem apiCall_retry_once_protocol_witness :
    ("/orders" : String) ≠ "/refresh" ∧
    (apiCall (baseWorld (some "R1"))
        [FetchResult.resolved 401
          (Body.obj none none none (some "Unauthorized") none),
         FetchResult.resolved 200
          (Body.obj (some "A2") (some "R2") (some adminUser) none none),
         FetchResult.resolved 200 (Body.obj none none none none none)]
        "/orders" "GET" none).result
      = .ok (Body.obj none none none none none) ∧
    (apiCall (baseWorld (some "R1"))
        [FetchResult.resolved 401
          (Body.obj none none none (some "Unauthorized") none),
         FetchResult.resolved 200
          (Body.obj (some "A2") (some "R2") (some adminUser) none none),
         FetchResult.resolved 200 (Body.obj none none none none none)]
        "/orders" "GET" none).logoutCalls = 0 ∧
    requestsTo (apiCall (baseWorld (some "R1"))
        [FetchResult.resolved 401
          (Body.obj none none none (some "Unauthorized") none),
         FetchResult.resolved 200
          (Body.obj (some "A2") (some "R2") (some adminUser) none none),
         FetchResult.resolved 200 (Body.obj none none none none none)]
        "/orders" "GET" none).trace "/orders" = 2 := by
  have h := apiCall_retry_once_protocol (baseWorld (some "R1"))
    (Body.obj none none none (some "Unauthorized") none)
    [FetchResult.resolved 200
      (Body.obj (some "A2") (some "R2") (some adminUser) none none),
     FetchResult.resolved 200 (Body.obj none none none none none)]
    "/orders" "GET" none
  have ha := h.1 (by decide)
  have hb := ha.2.1
    (Body.obj (some "A2") (some "R2") (some adminUser) none none)
    (by decide)
  have hc := (hb.2.2.1 200 (Body.obj none none none none none) []
    (by decide)).1 (by decide) (by decide)
  exact ⟨by decide, hc.1, hc.2, hb.2.1⟩

end Posmin
